import Mathlib

/-!
Shallow embedding of `src/nyota_personality.py`: a questionnaire scorer that
converts 72 integer ratings (scale 1-5) into 8 personality-axis scores on a
0-100 scale, plus the validation prefix of the radar-chart renderer.

Modelling choices:
  - Python `Dict[int, int]` (the raw responses) is a partial map `Nat → Option Int`.
  - Python inner dicts (per-block responses) are association lists
    `List (Nat × Int)` in insertion order; the outer dict is
    `List (String × List (Nat × Int))`.
  - Python exceptions (`ValueError`, `KeyError`) are `Except String`.
  - Python floats are `ℚ`; `round(x, 2)` is round-half-to-even on `x * 100`.
-/

/-- Source function `invert_score`: returns `6 - value` (reverse-scores an item). -/
def invert_score (value : Int) : Int := 6 - value

/-- Round-half-to-even of a rational to an integer, the semantics of
the Python builtin `round` (banker rounding). -/
def roundHalfEven (q : ℚ) : ℤ :=
  if q - (⌊q⌋ : ℚ) < 1/2 then ⌊q⌋
  else if 1/2 < q - (⌊q⌋ : ℚ) then ⌊q⌋ + 1
  else if ⌊q⌋ % 2 = 0 then ⌊q⌋ else ⌊q⌋ + 1

/-- Python `round(x, 2)`: round to 2 decimal places, half to even. -/
def roundTo2 (q : ℚ) : ℚ := (roundHalfEven (q * 100) : ℚ) / 100

/-- Source function `normalize_to_100`: computes `round(((score - 1) / 4) * 100, 2)`. -/
def normalize_to_100 (score : ℚ) : ℚ := roundTo2 (((score - 1) / 4) * 100)

/-- Configuration entry of one axis: the per-block contributing item lists
(a block key may be absent from the Python dict, hence `Option`) and the
list of inverted `(block, item)` pairs. -/
structure AxisConfig where
  bloc1 : Option (List Nat) := none
  bloc2 : Option (List Nat) := none
  bloc3 : Option (List Nat) := none
  bloc4 : Option (List Nat) := none
  invert : List (String × Nat)
deriving DecidableEq

/-- Source table `AXES_CONFIG`: the static 8-axis table, in source insertion
order. -/
def AXES_CONFIG : List (String × AxisConfig) :=
  [ ("Ouverture & Curiosité",
      { bloc1 := some (List.range' 1 6), bloc2 := some [14], bloc3 := some [3, 6],
        invert := [] }),
    ("Discipline & Fiabilité",
      { bloc1 := some (List.range' 7 6), bloc3 := some [7, 11, 12],
        invert := [] }),
    ("Influence & Présence",
      { bloc1 := some (List.range' 13 6), bloc2 := some [15],
        invert := [] }),
    ("Coopération",
      { bloc1 := some (List.range' 19 6), bloc2 := some [16],
        invert := [] }),
    ("Résilience & Stress",
      { bloc1 := some (List.range' 25 6), bloc2 := some (List.range' 1 8),
        invert := (List.range' 1 8).map (fun q => ("bloc2", q)) }),
    ("Drive & Motivation",
      { bloc2 := some [9, 10, 11, 12, 13, 15, 16],
        invert := [] }),
    ("Style d\x27action",
      { bloc3 := some (List.range' 1 12),
        invert := [] }),
    ("Alignement stratégique",
      { bloc4 := some (List.range' 1 14),
        invert := [] }) ]

/-- Source function `parse_responses`: splits the flat global map into the four
block dicts, renumbering by the fixed offsets 0 / 30 / 46 / 58. Each loop
`for i in range(a, b): if i in json_data: ...` is a `filterMap` over the
corresponding `List.range'`. -/
def parse_responses (json_data : Nat → Option Int) : List (String × List (Nat × Int)) :=
  [ ("bloc1", (List.range' 1 30).filterMap (fun i => (json_data i).map (fun v => (i, v)))),
    ("bloc2", (List.range' 31 16).filterMap (fun i => (json_data i).map (fun v => (i - 30, v)))),
    ("bloc3", (List.range' 47 12).filterMap (fun i => (json_data i).map (fun v => (i - 46, v)))),
    ("bloc4", (List.range' 59 14).filterMap (fun i => (json_data i).map (fun v => (i - 58, v)))) ]

/-- The missing-item message of the source:
`f"❌ [{axis_name}] Item manquant : {bloc_name} Q{item_num}"`. -/
def missingMsg (axis_name bloc_name : String) (item_num : Nat) : String :=
  "❌ [" ++ axis_name ++ "] Item manquant : " ++ bloc_name ++ " Q" ++ toString item_num

/-- The inner loop of `compute_axis_score` for one configured block: for each
listed item, look the block up in `responses` (Python raises `KeyError` if the
block key is absent), then the item in the block (missing item raises the
`ValueError` of line 136), inverting the value when `(bloc_name, item_num)`
is in the `invert` list of the axis. Values are collected in iteration order. -/
def collectBlock (axis_name bloc_name : String) (inv : List (String × Nat))
    (responses : List (String × List (Nat × Int))) : List Nat → Except String (List Int)
  | [] => Except.ok []
  | item_num :: rest =>
    match responses.lookup bloc_name with
    | none => Except.error ("KeyError: " ++ bloc_name)
    | some blk =>
      match blk.lookup item_num with
      | none => Except.error (missingMsg axis_name bloc_name item_num)
      | some value =>
        let value := if (bloc_name, item_num) ∈ inv then invert_score value else value
        match collectBlock axis_name bloc_name inv responses rest with
        | Except.error e => Except.error e
        | Except.ok vs => Except.ok (value :: vs)

/-- One step of the outer block loop: a block absent from the config dict is
skipped (`continue`). -/
def blockValues (axis_name bloc_name : String) (cfgBloc : Option (List Nat))
    (inv : List (String × Nat)) (responses : List (String × List (Nat × Int))) :
    Except String (List Int) :=
  match cfgBloc with
  | none => Except.ok []
  | some items => collectBlock axis_name bloc_name inv responses items

/-- The value-collection phase of `compute_axis_score`: iterate the blocks in
the fixed order bloc1, bloc2, bloc3, bloc4, concatenating collected values. -/
def axisValues (axis_name : String) (config : AxisConfig)
    (responses : List (String × List (Nat × Int))) : Except String (List Int) := do
  let v1 ← blockValues axis_name "bloc1" config.bloc1 config.invert responses
  let v2 ← blockValues axis_name "bloc2" config.bloc2 config.invert responses
  let v3 ← blockValues axis_name "bloc3" config.bloc3 config.invert responses
  let v4 ← blockValues axis_name "bloc4" config.bloc4 config.invert responses
  Except.ok (v1 ++ v2 ++ v3 ++ v4)

/-- Source function `compute_axis_score`: collects the configured (possibly
inverted) values; an empty collection returns `0.0`, otherwise the mean is
normalized to 0-100. -/
def compute_axis_score (axis_name : String) (config : AxisConfig)
    (responses : List (String × List (Nat × Int))) : Except String ℚ :=
  match axisValues axis_name config responses with
  | Except.error e => Except.error e
  | Except.ok values =>
    if values = [] then Except.ok 0
    else Except.ok (normalize_to_100 ((values.sum : ℚ) / (values.length : ℚ)))

/-- Source function `compute_all_scores`: parses once, then scores the 8 axes of
`AXES_CONFIG` in order; the first exception propagates and no partial score
map is produced. -/
def compute_all_scores (json_responses : Nat → Option Int) :
    Except String (List (String × ℚ)) :=
  let responses := parse_responses json_responses
  AXES_CONFIG.mapM (fun p => (compute_axis_score p.1 p.2 responses).map (fun s => (p.1, s)))

/-- The validation prefix of `plot_kiviat` from the source: the length-8 check
precedes all chart construction; `Except.ok ()` stands for handing the scores
to the (unmodelled) matplotlib drawing code. -/
def plot_kiviat (scores : List (String × ℚ)) : Except String Unit :=
  if scores.length ≠ 8 then
    Except.error ("⚠️ Le diagramme nécessite 8 axes, trouvé : " ++ toString scores.length)
  else Except.ok ()

/-- The raw-responses map with every global item 1..72 set to the same rating. -/
def allRated (r : Int) : Nat → Option Int :=
  fun n => if 1 ≤ n ∧ n ≤ 72 then some r else none

/-- The raw-responses map with global item 1 missing and items 2..72 rated 3. -/
def missingG1 : Nat → Option Int :=
  fun n => if 2 ≤ n ∧ n ≤ 72 then some 3 else none

/-- The fixed block-name order iterated by `compute_axis_score` (source line 130). -/
def blockNames : List String := ["bloc1", "bloc2", "bloc3", "bloc4"]

/-- The contributing-items list an axis config assigns to a named block
(`[]` when the block key is absent from the config dict). -/
def configItems (c : AxisConfig) (b : String) : List Nat :=
  if b = "bloc1" then c.bloc1.getD []
  else if b = "bloc2" then c.bloc2.getD []
  else if b = "bloc3" then c.bloc3.getD []
  else if b = "bloc4" then c.bloc4.getD []
  else []

/-- The per-block map a parsed-responses structure assigns to a block name. -/
def blockOf (r : List (String × List (Nat × Int))) (b : String) : List (Nat × Int) :=
  (r.lookup b).getD []

/-- A parsed-responses structure with the four block keys, in the order
`parse_responses` creates them. -/
def mkParsed (b1 b2 b3 b4 : List (Nat × Int)) : List (String × List (Nat × Int)) :=
  [("bloc1", b1), ("bloc2", b2), ("bloc3", b3), ("bloc4", b4)]

/-- The block a global item number 1..72 belongs to (from the four loop
ranges of the source). -/
def globalBlock (i : Nat) : String :=
  if i ≤ 30 then "bloc1" else if i ≤ 46 then "bloc2" else if i ≤ 58 then "bloc3" else "bloc4"

/-- The block-local index of a global item number (offsets 0 / 30 / 46 / 58). -/
def localItem (i : Nat) : Nat :=
  if i ≤ 30 then i else if i ≤ 46 then i - 30 else if i ≤ 58 then i - 46 else i - 58

/-- A 7-entry score map, used to exercise the radar-chart precondition. -/
def sevenScores : List (String × ℚ) := List.replicate 7 ("axe", (0 : ℚ))

/-- An axis config whose only contribution list is bloc1 item 1. -/
def soloCfg : AxisConfig := { bloc1 := some [1], invert := [] }

/-- An axis config with no contributing items at all. -/
def emptyCfg : AxisConfig := { invert := [] }

/-- The "Résilience & Stress" entry of `AXES_CONFIG`. -/
def resilienceCfg : AxisConfig :=
  { bloc1 := some (List.range' 25 6), bloc2 := some (List.range' 1 8),
    invert := (List.range' 1 8).map (fun q => ("bloc2", q)) }

/-! ## Helper lemmas -/

theorem except_ok_bind {α β : Type} (v : α) (f : α → Except String β) :
    (Except.ok v >>= f) = f v := rfl

theorem except_err_bind {α β : Type} (e : String) (f : α → Except String β) :
    ((Except.error e : Except String α) >>= f) = Except.error e := rfl

theorem roundHalfEven_le_of_le (q : ℚ) (n : ℤ) (h : q ≤ (n : ℚ)) : roundHalfEven q ≤ n := by
  have hf : ⌊q⌋ ≤ n := by
    have h2 := Int.floor_le_floor h
    rwa [Int.floor_intCast] at h2
  have hq : (⌊q⌋ : ℚ) ≤ q := Int.floor_le q
  unfold roundHalfEven
  split
  · exact hf
  · next hlt =>
    have hhalf : (1 : ℚ)/2 ≤ q - (⌊q⌋ : ℚ) := le_of_not_lt hlt
    have hstrict : (⌊q⌋ : ℚ) < (n : ℚ) := by linarith
    have hsucc : ⌊q⌋ < n := by exact_mod_cast hstrict
    split
    · omega
    · split <;> omega

theorem le_roundHalfEven (q : ℚ) (n : ℤ) (h : (n : ℚ) ≤ q) : n ≤ roundHalfEven q := by
  have hf : n ≤ ⌊q⌋ := Int.le_floor.mpr h
  unfold roundHalfEven
  split
  · exact hf
  · split
    · omega
    · split <;> omega

/-! ## Claim theorems -/

/-- C1: with every global item 1..72 rated 3, `compute_all_scores` succeeds and
gives every one of the 8 axes the score exactly 50. -/
theorem all_threes_scores_fifty :
    compute_all_scores (allRated 3) =
      Except.ok (AXES_CONFIG.map (fun p => (p.1, (50 : ℚ)))) ∧
    AXES_CONFIG.length = 8 := by
  constructor
  · with_unfolding_all rfl
  · rfl

/-- C5: `normalize_to_100` computes `round(((m - 1) / 4) * 100, 2)`; on means in
`[1, 5]` the result lies in `[0, 100]`, and 1, 3, 5 map to 0, 50, 100. -/
theorem normalize_to_100_spec :
    (∀ m : ℚ, 1 ≤ m → m ≤ 5 →
      0 ≤ normalize_to_100 m ∧ normalize_to_100 m ≤ 100) ∧
    normalize_to_100 1 = 0 ∧ normalize_to_100 3 = 50 ∧ normalize_to_100 5 = 100 ∧
    (∀ m : ℚ, normalize_to_100 m = roundTo2 (((m - 1) / 4) * 100)) := by
  refine ⟨?_, by with_unfolding_all rfl, by with_unfolding_all rfl,
    by with_unfolding_all rfl, fun m => rfl⟩
  intro m h1 h5
  have harg : (((m - 1) / 4) * 100) * 100 = (m - 1) * 2500 := by ring
  have hkey : normalize_to_100 m = ((roundHalfEven ((m - 1) * 2500) : ℤ) : ℚ) / 100 := by
    unfold normalize_to_100 roundTo2
    rw [harg]
  have h0 : ((0 : ℤ) : ℚ) ≤ (m - 1) * 2500 := by
    have : (0 : ℚ) ≤ m - 1 := by linarith
    push_cast
    nlinarith
  have h10 : (m - 1) * 2500 ≤ ((10000 : ℤ) : ℚ) := by
    push_cast
    nlinarith
  have hlo : (0 : ℤ) ≤ roundHalfEven ((m - 1) * 2500) := le_roundHalfEven _ 0 h0
  have hhi : roundHalfEven ((m - 1) * 2500) ≤ 10000 := roundHalfEven_le_of_le _ 10000 h10
  rw [hkey]
  constructor
  · apply div_nonneg _ (by norm_num)
    exact_mod_cast hlo
  · rw [div_le_iff₀ (by norm_num : (0 : ℚ) < 100)]
    have : ((roundHalfEven ((m - 1) * 2500) : ℤ) : ℚ) ≤ ((10000 : ℤ) : ℚ) := by
      exact_mod_cast hhi
    push_cast at this ⊢
    linarith

/-- C5 witness: the bound statement instantiated at the mean 3. -/
theorem normalize_to_100_spec_witness :
    0 ≤ normalize_to_100 3 ∧ normalize_to_100 3 ≤ 100 :=
  normalize_to_100_spec.1 3 (by norm_num) (by norm_num)

/-- C6: `invert_score` maps 1→5, 2→4, 3→3, 4→2, 5→1 and is an involution on
the rating scale. -/
theorem invert_score_involution :
    (∀ v : Int, v ∈ ([1, 2, 3, 4, 5] : List Int) →
      invert_score (invert_score v) = v) ∧
    invert_score 1 = 5 ∧ invert_score 2 = 4 ∧ invert_score 3 = 3 ∧
    invert_score 4 = 2 ∧ invert_score 5 = 1 := by
  refine ⟨?_, rfl, rfl, rfl, rfl, rfl⟩
  intro v hv
  fin_cases hv <;> rfl

/-- C6 witness: the involution instantiated at the rating 2. -/
theorem invert_score_involution_witness :
    invert_score (invert_score 2) = 2 :=
  invert_score_involution.1 2 (by decide)

/-- C9: `plot_kiviat` rejects any score map that does not have exactly 8
entries, with the validation error raised before any drawing. -/
theorem plot_kiviat_requires_eight (scores : List (String × ℚ)) (h : scores.length ≠ 8) :
    plot_kiviat scores =
      Except.error ("⚠️ Le diagramme nécessite 8 axes, trouvé : " ++ toString scores.length) := by
  simp [plot_kiviat, h]

/-- C9 witness: a 7-entry score map is rejected. -/
theorem plot_kiviat_requires_eight_witness :
    plot_kiviat sevenScores =
      Except.error ("⚠️ Le diagramme nécessite 8 axes, trouvé : " ++ toString sevenScores.length) :=
  plot_kiviat_requires_eight sevenScores (by decide)

theorem configItems_eq1 (c : AxisConfig) : configItems c "bloc1" = c.bloc1.getD [] := rfl

theorem configItems_eq2 (c : AxisConfig) : configItems c "bloc2" = c.bloc2.getD [] := rfl

theorem configItems_eq3 (c : AxisConfig) : configItems c "bloc3" = c.bloc3.getD [] := rfl

theorem configItems_eq4 (c : AxisConfig) : configItems c "bloc4" = c.bloc4.getD [] := rfl

theorem blockValues_of_getD_nil (axis_name bloc_name : String) (o : Option (List Nat))
    (inv : List (String × Nat)) (responses : List (String × List (Nat × Int)))
    (h : o.getD [] = []) :
    blockValues axis_name bloc_name o inv responses = Except.ok [] := by
  cases o with
  | none => rfl
  | some l =>
    simp only [Option.getD_some] at h
    subst h
    rfl

/-- C3: with every item rated 5, the axis with inverted items
("Résilience & Stress") scores strictly below 100, while an axis without
inversions ("Discipline & Fiabilité") scores exactly 100. -/
theorem all_fives_resilience_below_hundred :
    ∃ (scores : List (String × ℚ)) (q : ℚ),
      compute_all_scores (allRated 5) = Except.ok scores ∧
      scores.lookup "Résilience & Stress" = some q ∧ q < 100 ∧
      scores.lookup "Discipline & Fiabilité" = some 100 := by
  refine ⟨_, 2143/50, by with_unfolding_all rfl, ?_, by norm_num, ?_⟩
  · with_unfolding_all rfl
  · with_unfolding_all rfl

/-- C7: in the static `AXES_CONFIG` table, every inverted `(block, item)` pair
of an axis also appears in the contributing-items list of that axis for the same
block. -/
theorem axes_config_invert_included :
    ∀ p ∈ AXES_CONFIG, ∀ bi ∈ p.2.invert, bi.2 ∈ configItems p.2 bi.1 := by
  decide

/-- C7 witness: the inverted pair (bloc2, 3) of "Résilience & Stress"
contributes to that axis. -/
theorem axes_config_invert_included_witness :
    (("bloc2", 3) : String × Nat).2 ∈ configItems resilienceCfg ("bloc2", 3).1 :=
  axes_config_invert_included ("Résilience & Stress", resilienceCfg) (by decide)
    ("bloc2", 3) (by decide)

/-- C8: an axis configuration with no contributing items at all yields the
score 0 (no division by zero is attempted). -/
theorem empty_config_zero_score (axis_name : String) (config : AxisConfig)
    (responses : List (String × List (Nat × Int)))
    (h1 : configItems config "bloc1" = []) (h2 : configItems config "bloc2" = [])
    (h3 : configItems config "bloc3" = []) (h4 : configItems config "bloc4" = []) :
    compute_axis_score axis_name config responses = Except.ok 0 := by
  rw [configItems_eq1] at h1
  rw [configItems_eq2] at h2
  rw [configItems_eq3] at h3
  rw [configItems_eq4] at h4
  have e1 := blockValues_of_getD_nil axis_name "bloc1" config.bloc1 config.invert responses h1
  have e2 := blockValues_of_getD_nil axis_name "bloc2" config.bloc2 config.invert responses h2
  have e3 := blockValues_of_getD_nil axis_name "bloc3" config.bloc3 config.invert responses h3
  have e4 := blockValues_of_getD_nil axis_name "bloc4" config.bloc4 config.invert responses h4
  simp [compute_axis_score, axisValues, e1, e2, e3, e4, except_ok_bind]

/-- C8 witness: the all-empty configuration scores 0 on empty responses. -/
theorem empty_config_zero_score_witness :
    compute_axis_score "Axe vide" emptyCfg [] = Except.ok 0 :=
  empty_config_zero_score "Axe vide" emptyCfg [] rfl rfl rfl rfl

theorem lookup_filterMap_range (j : Nat → Option Int) (o k : Nat) :
    ∀ (n a : Nat), o < a →
    List.lookup k ((List.range' a n).filterMap (fun i => (j i).map (fun v => (i - o, v)))) =
      if a ≤ k + o ∧ k + o < a + n then j (k + o) else none := by
  intro n
  induction n with
  | zero =>
    intro a ho
    rw [List.range'_zero, List.filterMap_nil, List.lookup_nil, if_neg (by omega)]
  | succ n ih =>
    intro a ho
    rw [List.range'_succ, List.filterMap_cons]
    cases hja : j a with
    | none =>
      simp only [Option.map_none']
      rw [ih (a + 1) (by omega)]
      by_cases hk : k + o = a
      · rw [if_neg (by omega), if_pos (by omega), hk, hja]
      · by_cases hin : a ≤ k + o ∧ k + o < a + (n + 1)
        · rw [if_pos (by omega), if_pos hin]
        · rw [if_neg (by omega), if_neg hin]
    | some v =>
      simp only [Option.map_some']
      by_cases hk : k = a - o
      · have hko : k + o = a := by omega
        simp only [List.lookup, hk, beq_self_eq_true]
        have hao : a - o + o = a := by omega
        rw [if_pos (by omega), hao, hja]
      · have hne : (k == a - o) = false := beq_eq_false_iff_ne.mpr hk
        simp only [List.lookup, hne]
        rw [ih (a + 1) (by omega)]
        by_cases hin : a + 1 ≤ k + o ∧ k + o < a + 1 + n
        · rw [if_pos hin, if_pos (by omega)]
        · rw [if_neg hin, if_neg (by omega)]

theorem blockOf_parse1 (j : Nat → Option Int) :
    blockOf (parse_responses j) "bloc1" =
      (List.range' 1 30).filterMap (fun i => (j i).map (fun v => (i, v))) := rfl

theorem blockOf_parse2 (j : Nat → Option Int) :
    blockOf (parse_responses j) "bloc2" =
      (List.range' 31 16).filterMap (fun i => (j i).map (fun v => (i - 30, v))) := rfl

theorem blockOf_parse3 (j : Nat → Option Int) :
    blockOf (parse_responses j) "bloc3" =
      (List.range' 47 12).filterMap (fun i => (j i).map (fun v => (i - 46, v))) := rfl

theorem blockOf_parse4 (j : Nat → Option Int) :
    blockOf (parse_responses j) "bloc4" =
      (List.range' 59 14).filterMap (fun i => (j i).map (fun v => (i - 58, v))) := rfl

theorem parse_congr (j j2 : Nat → Option Int) (h : ∀ i, 1 ≤ i → i ≤ 72 → j2 i = j i) :
    parse_responses j2 = parse_responses j := by
  have e1 : (List.range' 1 30).filterMap (fun i => (j2 i).map (fun v => (i, v))) =
      (List.range' 1 30).filterMap (fun i => (j i).map (fun v => (i, v))) :=
    List.filterMap_congr (fun i hi => by
      rw [List.mem_range'_1] at hi
      rw [h i (by omega) (by omega)])
  have e2 : (List.range' 31 16).filterMap (fun i => (j2 i).map (fun v => (i - 30, v))) =
      (List.range' 31 16).filterMap (fun i => (j i).map (fun v => (i - 30, v))) :=
    List.filterMap_congr (fun i hi => by
      rw [List.mem_range'_1] at hi
      rw [h i (by omega) (by omega)])
  have e3 : (List.range' 47 12).filterMap (fun i => (j2 i).map (fun v => (i - 46, v))) =
      (List.range' 47 12).filterMap (fun i => (j i).map (fun v => (i - 46, v))) :=
    List.filterMap_congr (fun i hi => by
      rw [List.mem_range'_1] at hi
      rw [h i (by omega) (by omega)])
  have e4 : (List.range' 59 14).filterMap (fun i => (j2 i).map (fun v => (i - 58, v))) =
      (List.range' 59 14).filterMap (fun i => (j i).map (fun v => (i - 58, v))) :=
    List.filterMap_congr (fun i hi => by
      rw [List.mem_range'_1] at hi
      rw [h i (by omega) (by omega)])
  simp only [parse_responses, e1, e2, e3, e4]

/-- C4: `parse_responses` renumbers global items by the offsets 0/30/46/58:
global 31 becomes bloc2 local 1, global 46 becomes bloc2 local 16, global 72
becomes bloc4 local 14; and a key outside 1..72 (such as 0 or 73) is silently
dropped: removing it from the input leaves the parsed output unchanged. -/
theorem parse_offset_mapping :
    (∀ (j : Nat → Option Int) (v : Int), j 31 = some v →
      List.lookup 1 (blockOf (parse_responses j) "bloc2") = some v) ∧
    (∀ (j : Nat → Option Int) (v : Int), j 46 = some v →
      List.lookup 16 (blockOf (parse_responses j) "bloc2") = some v) ∧
    (∀ (j : Nat → Option Int) (v : Int), j 72 = some v →
      List.lookup 14 (blockOf (parse_responses j) "bloc4") = some v) ∧
    (∀ (j : Nat → Option Int) (k : Nat), k = 0 ∨ 73 ≤ k →
      parse_responses (fun i => if i = k then none else j i) = parse_responses j) := by
  refine ⟨?_, ?_, ?_, ?_⟩
  · intro j v hv
    rw [blockOf_parse2, lookup_filterMap_range j 30 1 16 31 (by omega), if_pos (by omega)]
    exact hv
  · intro j v hv
    rw [blockOf_parse2, lookup_filterMap_range j 30 16 16 31 (by omega), if_pos (by omega)]
    exact hv
  · intro j v hv
    rw [blockOf_parse4, lookup_filterMap_range j 58 14 14 59 (by omega), if_pos (by omega)]
    exact hv
  · intro j k hk
    exact parse_congr j _ (fun i h1 h2 => if_neg (by omega))

/-- C4 witness: the three offset facts and the dropped key 73, on the all-4
input. -/
theorem parse_offset_mapping_witness :
    List.lookup 1 (blockOf (parse_responses (allRated 4)) "bloc2") = some 4 ∧
    List.lookup 16 (blockOf (parse_responses (allRated 4)) "bloc2") = some 4 ∧
    List.lookup 14 (blockOf (parse_responses (allRated 4)) "bloc4") = some 4 ∧
    parse_responses (fun i => if i = 73 then none else allRated 4 i) =
      parse_responses (allRated 4) :=
  ⟨parse_offset_mapping.1 (allRated 4) 4 (by decide),
   parse_offset_mapping.2.1 (allRated 4) 4 (by decide),
   parse_offset_mapping.2.2.1 (allRated 4) 4 (by decide),
   parse_offset_mapping.2.2.2 (allRated 4) 73 (by decide)⟩

/-- C10: `parse_responses` always returns exactly the four block keys bloc1..4
in order; every in-range input rating is carried over unchanged to its block
under its local index; and each block name the scorer consults looks up
successfully. -/
theorem parse_responses_blocks :
    (∀ j : Nat → Option Int, (parse_responses j).map Prod.fst = blockNames) ∧
    (∀ (j : Nat → Option Int) (i : Nat) (v : Int), 1 ≤ i → i ≤ 72 → j i = some v →
      List.lookup (localItem i) (blockOf (parse_responses j) (globalBlock i)) = some v) ∧
    (∀ (j : Nat → Option Int) (b : String), b ∈ blockNames →
      (List.lookup b (parse_responses j)).isSome = true) := by
  refine ⟨fun j => rfl, ?_, ?_⟩
  · intro j i v h1 h72 hj
    by_cases c1 : i ≤ 30
    · have hb : globalBlock i = "bloc1" := if_pos c1
      have hl : localItem i = i := if_pos c1
      rw [hb, hl, blockOf_parse1]
      have hgen := lookup_filterMap_range j 0 i 30 1 (by omega)
      simp only [Nat.sub_zero, Nat.add_zero] at hgen
      rw [hgen, if_pos (by omega)]
      exact hj
    · by_cases c2 : i ≤ 46
      · have hb : globalBlock i = "bloc2" := by
          unfold globalBlock
          rw [if_neg c1, if_pos c2]
        have hl : localItem i = i - 30 := by
          unfold localItem
          rw [if_neg c1, if_pos c2]
        rw [hb, hl, blockOf_parse2,
          lookup_filterMap_range j 30 (i - 30) 16 31 (by omega), if_pos (by omega)]
        have hi : i - 30 + 30 = i := by omega
        rw [hi]
        exact hj
      · by_cases c3 : i ≤ 58
        · have hb : globalBlock i = "bloc3" := by
            unfold globalBlock
            rw [if_neg c1, if_neg c2, if_pos c3]
          have hl : localItem i = i - 46 := by
            unfold localItem
            rw [if_neg c1, if_neg c2, if_pos c3]
          rw [hb, hl, blockOf_parse3,
            lookup_filterMap_range j 46 (i - 46) 12 47 (by omega), if_pos (by omega)]
          have hi : i - 46 + 46 = i := by omega
          rw [hi]
          exact hj
        · have hb : globalBlock i = "bloc4" := by
            unfold globalBlock
            rw [if_neg c1, if_neg c2, if_neg c3]
          have hl : localItem i = i - 58 := by
            unfold localItem
            rw [if_neg c1, if_neg c2, if_neg c3]
          rw [hb, hl, blockOf_parse4,
            lookup_filterMap_range j 58 (i - 58) 14 59 (by omega), if_pos (by omega)]
          have hi : i - 58 + 58 = i := by omega
          rw [hi]
          exact hj
  · intro j b hb
    simp only [blockNames, List.mem_cons, List.not_mem_nil, or_false] at hb
    rcases hb with rfl | rfl | rfl | rfl <;> rfl

/-- C10 witness: carried-over rating at global item 31 and a defined scorer
lookup on bloc3, on the all-2 input. -/
theorem parse_responses_blocks_witness :
    List.lookup (localItem 31) (blockOf (parse_responses (allRated 2)) (globalBlock 31)) =
      some 2 ∧
    (List.lookup "bloc3" (parse_responses (allRated 2))).isSome = true :=
  ⟨parse_responses_blocks.2.1 (allRated 2) 31 2 (by decide) (by decide) (by decide),
   parse_responses_blocks.2.2 (allRated 2) "bloc3" (by decide)⟩

theorem collectBlock_ok (axis_name bloc_name : String) (inv : List (String × Nat))
    (responses : List (String × List (Nat × Int))) (blk : List (Nat × Int))
    (hb : responses.lookup bloc_name = some blk) :
    ∀ items : List Nat, (∀ i ∈ items, (blk.lookup i).isSome = true) →
      ∃ vs, collectBlock axis_name bloc_name inv responses items = Except.ok vs := by
  intro items
  induction items with
  | nil => exact fun _ => ⟨[], rfl⟩
  | cons i rest ih =>
    intro h
    obtain ⟨vs, hvs⟩ := ih (fun x hx => h x (List.mem_cons_of_mem _ hx))
    obtain ⟨v, hv⟩ := Option.isSome_iff_exists.mp (h i (List.mem_cons_self _ _))
    refine ⟨(if (bloc_name, i) ∈ inv then invert_score v else v) :: vs, ?_⟩
    simp [collectBlock, hb, hv, hvs]

theorem collectBlock_err (axis_name bloc_name : String) (inv : List (String × Nat))
    (responses : List (String × List (Nat × Int))) (blk : List (Nat × Int))
    (hb : responses.lookup bloc_name = some blk) :
    ∀ items : List Nat, (∃ i ∈ items, blk.lookup i = none) →
      ∃ i ∈ items, blk.lookup i = none ∧
        collectBlock axis_name bloc_name inv responses items =
          Except.error (missingMsg axis_name bloc_name i) := by
  intro items
  induction items with
  | nil =>
    intro h
    simp at h
  | cons i rest ih =>
    intro h
    by_cases hi : blk.lookup i = none
    · exact ⟨i, List.mem_cons_self _ _, hi, by simp [collectBlock, hb, hi]⟩
    · obtain ⟨v, hv⟩ := Option.ne_none_iff_exists'.mp hi
      have hrest : ∃ x ∈ rest, blk.lookup x = none := by
        obtain ⟨x, hx, hxn⟩ := h
        rcases List.mem_cons.mp hx with rfl | hx2
        · exact absurd hxn hi
        · exact ⟨x, hx2, hxn⟩
      obtain ⟨x, hx, hxn, hxe⟩ := ih hrest
      exact ⟨x, List.mem_cons_of_mem _ hx, hxn, by simp [collectBlock, hb, hv, hxe]⟩

theorem blockValues_ok (axis_name bloc_name : String) (o : Option (List Nat))
    (inv : List (String × Nat)) (responses : List (String × List (Nat × Int)))
    (blk : List (Nat × Int)) (hb : responses.lookup bloc_name = some blk)
    (h : ∀ i ∈ o.getD [], (blk.lookup i).isSome = true) :
    ∃ vs, blockValues axis_name bloc_name o inv responses = Except.ok vs := by
  cases o with
  | none => exact ⟨[], rfl⟩
  | some items => exact collectBlock_ok _ _ _ _ _ hb items (by simpa using h)

theorem blockValues_err (axis_name bloc_name : String) (o : Option (List Nat))
    (inv : List (String × Nat)) (responses : List (String × List (Nat × Int)))
    (blk : List (Nat × Int)) (hb : responses.lookup bloc_name = some blk)
    (h : ∃ i ∈ o.getD [], blk.lookup i = none) :
    ∃ i ∈ o.getD [], blk.lookup i = none ∧
      blockValues axis_name bloc_name o inv responses =
        Except.error (missingMsg axis_name bloc_name i) := by
  cases o with
  | none => simp at h
  | some items => simpa using collectBlock_err _ _ _ _ _ hb items (by simpa using h)

/-- C2: on a parsed-responses structure, a configured (block, item) pair absent
from its block makes `compute_axis_score` fail with the error naming the axis,
the block and the item; and `compute_all_scores` on an input missing global
item 1 fails with the error naming "Ouverture & Curiosité", bloc1, item 1
(and so returns no score map). -/
theorem missing_item_fails :
    (∀ (axis_name : String) (b1 b2 b3 b4 : List (Nat × Int)) (config : AxisConfig),
      (∃ b ∈ blockNames, ∃ i ∈ configItems config b,
        List.lookup i (blockOf (mkParsed b1 b2 b3 b4) b) = none) →
      ∃ b ∈ blockNames, ∃ i ∈ configItems config b,
        List.lookup i (blockOf (mkParsed b1 b2 b3 b4) b) = none ∧
        compute_axis_score axis_name config (mkParsed b1 b2 b3 b4) =
          Except.error (missingMsg axis_name b i)) ∧
    compute_all_scores missingG1 =
      Except.error (missingMsg "Ouverture & Curiosité" "bloc1" 1) := by
  constructor
  · intro axis_name b1 b2 b3 b4 config hex
    have l1 : List.lookup "bloc1" (mkParsed b1 b2 b3 b4) = some b1 := rfl
    have l2 : List.lookup "bloc2" (mkParsed b1 b2 b3 b4) = some b2 := rfl
    have l3 : List.lookup "bloc3" (mkParsed b1 b2 b3 b4) = some b3 := rfl
    have l4 : List.lookup "bloc4" (mkParsed b1 b2 b3 b4) = some b4 := rfl
    by_cases h1 : ∃ i ∈ config.bloc1.getD [], List.lookup i b1 = none
    · obtain ⟨i, him, hin, herr⟩ :=
        blockValues_err axis_name "bloc1" config.bloc1 config.invert _ b1 l1 h1
      refine ⟨"bloc1", by simp [blockNames], i, him, hin, ?_⟩
      simp [compute_axis_score, axisValues, herr, except_err_bind]
    · have h1' : ∀ i ∈ config.bloc1.getD [], (List.lookup i b1).isSome = true := by
        intro i hi
        cases hl : List.lookup i b1 with
        | none => exact absurd ⟨i, hi, hl⟩ h1
        | some v => rfl
      obtain ⟨v1, hv1⟩ :=
        blockValues_ok axis_name "bloc1" config.bloc1 config.invert _ b1 l1 h1'
      by_cases h2 : ∃ i ∈ config.bloc2.getD [], List.lookup i b2 = none
      · obtain ⟨i, him, hin, herr⟩ :=
          blockValues_err axis_name "bloc2" config.bloc2 config.invert _ b2 l2 h2
        refine ⟨"bloc2", by simp [blockNames], i, him, hin, ?_⟩
        simp [compute_axis_score, axisValues, hv1, herr, except_ok_bind, except_err_bind]
      · have h2' : ∀ i ∈ config.bloc2.getD [], (List.lookup i b2).isSome = true := by
          intro i hi
          cases hl : List.lookup i b2 with
          | none => exact absurd ⟨i, hi, hl⟩ h2
          | some v => rfl
        obtain ⟨v2, hv2⟩ :=
          blockValues_ok axis_name "bloc2" config.bloc2 config.invert _ b2 l2 h2'
        by_cases h3 : ∃ i ∈ config.bloc3.getD [], List.lookup i b3 = none
        · obtain ⟨i, him, hin, herr⟩ :=
            blockValues_err axis_name "bloc3" config.bloc3 config.invert _ b3 l3 h3
          refine ⟨"bloc3", by simp [blockNames], i, him, hin, ?_⟩
          simp [compute_axis_score, axisValues, hv1, hv2, herr, except_ok_bind,
            except_err_bind]
        · have h3' : ∀ i ∈ config.bloc3.getD [], (List.lookup i b3).isSome = true := by
            intro i hi
            cases hl : List.lookup i b3 with
            | none => exact absurd ⟨i, hi, hl⟩ h3
            | some v => rfl
          obtain ⟨v3, hv3⟩ :=
            blockValues_ok axis_name "bloc3" config.bloc3 config.invert _ b3 l3 h3'
          by_cases h4 : ∃ i ∈ config.bloc4.getD [], List.lookup i b4 = none
          · obtain ⟨i, him, hin, herr⟩ :=
              blockValues_err axis_name "bloc4" config.bloc4 config.invert _ b4 l4 h4
            refine ⟨"bloc4", by simp [blockNames], i, him, hin, ?_⟩
            simp [compute_axis_score, axisValues, hv1, hv2, hv3, herr, except_ok_bind,
              except_err_bind]
          · exfalso
            obtain ⟨b, hb, i, hi, hnone⟩ := hex
            simp only [blockNames, List.mem_cons, List.not_mem_nil, or_false] at hb
            rcases hb with rfl | rfl | rfl | rfl
            · exact h1 ⟨i, hi, hnone⟩
            · exact h2 ⟨i, hi, hnone⟩
            · exact h3 ⟨i, hi, hnone⟩
            · exact h4 ⟨i, hi, hnone⟩
  · with_unfolding_all rfl

/-- C2 witness: a one-item config against empty parsed blocks fails naming the
pair, and the concrete all-scores run on the input missing item 1 fails with
the expected message. -/
theorem missing_item_fails_witness :
    (∃ b ∈ blockNames, ∃ i ∈ configItems soloCfg b,
      List.lookup i (blockOf (mkParsed [] [] [] []) b) = none ∧
      compute_axis_score "Axe test" soloCfg (mkParsed [] [] [] []) =
        Except.error (missingMsg "Axe test" b i)) ∧
    compute_all_scores missingG1 =
      Except.error (missingMsg "Ouverture & Curiosité" "bloc1" 1) :=
  ⟨missing_item_fails.1 "Axe test" [] [] [] [] soloCfg
      ⟨"bloc1", by decide, 1, by decide, by decide⟩,
   missing_item_fails.2⟩
